import Mathlib

/-!
Verification of the donation checkout flow of the nvopk9medgrp repository.

The development shallowly embeds the checkout-related source files:
* the hosted-checkout donation modal (DonationModal using CheckoutProvider),
* the embedded Elements donation modal (DonationModal using Elements keyed by amount),
* the CheckoutForm submission handler,
* the create-payment-intent, create-checkout-session and verify-session API routes.

JavaScript numbers are modelled as exact rationals; IEEE double rounding and
overflow are not modelled (all thresholds relevant to the specification are far
below any magnitude where doubles lose integer precision).
-/

namespace NvK9

/-! ## Models of the JavaScript primitives used by the checkout code -/

/-- Whitespace characters skipped by JavaScript parseFloat before the numeric
literal (ASCII subset). -/
def isJsWhitespace (c : Char) : Bool :=
  c = ' ' || c = '\t' || c = '\n' || c = '\r' || c = '\x0b' || c = '\x0c'

/-- Value of a list of decimal digit characters, most significant first. -/
def natOfDigits (ds : List Char) : Nat :=
  ds.foldl (fun a c => a * 10 + (c.toNat - 48)) 0

/-- The sign, digits and exponent of a parsed decimal literal. -/
structure ParsedNum where
  neg : Bool
  intPart : List Char
  fracPart : List Char
  exp : Int
deriving DecidableEq

/-- The decimal-literal part of JavaScript parseFloat: skip leading
whitespace, optional sign, then the longest prefix matching
digits [ . digits ] [ (e|E) [sign] digits ]; `none` models NaN. -/
def parseDecimal (s : String) : Option ParsedNum :=
  let cs := s.data.dropWhile isJsWhitespace
  let (neg, cs) :=
    match cs with
    | '-' :: t => (true, t)
    | '+' :: t => (false, t)
    | _ => (false, cs)
  let (ip, r1) := cs.span Char.isDigit
  let (fp, r2) :=
    match r1 with
    | '.' :: t => t.span Char.isDigit
    | _ => ([], r1)
  if ip.isEmpty && fp.isEmpty then none
  else
    let e : Int :=
      match r2 with
      | 'e' :: t | 'E' :: t =>
        match t with
        | '-' :: u => if (u.span Char.isDigit).1.isEmpty then 0
                      else -(natOfDigits (u.span Char.isDigit).1 : Int)
        | '+' :: u => if (u.span Char.isDigit).1.isEmpty then 0
                      else (natOfDigits (u.span Char.isDigit).1 : Int)
        | _ => if (t.span Char.isDigit).1.isEmpty then 0
               else (natOfDigits (t.span Char.isDigit).1 : Int)
      | _ => 0
    some { neg := neg, intPart := ip, fracPart := fp, exp := e }

/-- The rational value of a parsed decimal literal. -/
def ratOfParsed (p : ParsedNum) : ℚ :=
  let mant : ℚ :=
    (natOfDigits p.intPart : ℚ) + (natOfDigits p.fracPart : ℚ) / (10 : ℚ) ^ p.fracPart.length
  let v := mant * (10 : ℚ) ^ p.exp
  if p.neg then -v else v

/-- Model of JavaScript parseFloat restricted to decimal literals; `none`
models NaN. Infinity literals are not modelled (they are mapped to NaN); the
checkout custom-amount fields are number inputs, whose values are always valid
decimal strings or empty, so an Infinity literal can never reach the
handlers. -/
def jsParseFloat (s : String) : Option ℚ := (parseDecimal s).map ratOfParsed

/-- Model of JavaScript String.prototype.includes for a single character. -/
def jsIncludes (s : String) (c : Char) : Bool := s.data.contains c

/-- Model of JavaScript Math.round: round half toward positive infinity. -/
def jsRound (q : ℚ) : Int := Int.floor (q + 1 / 2)

/-- Consume one or more decimal digits, returning the rest of the input, or
`none` if no digit is present. -/
def digits1 (cs : List Char) : Option (List Char) :=
  let (ds, r) := cs.span Char.isDigit
  if ds.isEmpty then none else some r

/-- A valid floating-point number string in the sense of the HTML standard:
optional minus sign, one or more digits, optional fraction (dot followed by one
or more digits), optional exponent part. An input element with type number only
ever reports such a string, or the empty string, as its value. -/
def isValidFp (s : String) : Bool :=
  let cs :=
    match s.data with
    | '-' :: t => t
    | t => t
  match digits1 cs with
  | none => false
  | some r1 =>
    let r2 :=
      match r1 with
      | '.' :: t => digits1 t
      | _ => some r1
    match r2 with
    | none => false
    | some [] => true
    | some ('e' :: t) | some ('E' :: t) =>
      let u :=
        match t with
        | '-' :: u => u
        | '+' :: u => u
        | u => u
      match digits1 u with
      | some [] => true
      | _ => false
    | some _ => false

/-- An untyped JSON value as received by the API routes after await req.json().
JSON has no NaN or Infinity, so numbers are finite; undef models an absent
field (undefined). -/
inductive JVal where
  | undef
  | null
  | bool (b : Bool)
  | num (q : ℚ)
  | str (s : String)
deriving DecidableEq

/-- JavaScript falsiness of a JSON value (undefined, null, false, 0, ""). -/
def jsFalsy : JVal → Bool
  | .undef => true
  | .null => true
  | .bool b => !b
  | .num q => q = 0
  | .str s => s = ""

/-- Does typeof yield "number" for this value? -/
def isNumber : JVal → Bool
  | .num _ => true
  | _ => false

/-! ## Embedded donation modal (the DonationModal that renders Elements keyed
by the amount, together with its CheckoutPage child) -/

namespace Emb

/-- The React state of the embedded DonationModal: open, selectedAmount
(in dollars, initialised to defaultAmount = 50), customInput (the text of the
custom-amount number input) and amountError. -/
structure EmbState where
  isOpen : Bool
  selectedAmount : ℚ
  customInput : String
  amountError : String
deriving DecidableEq

/-- Initial state of the embedded modal (defaultAmount = 50). -/
def embInit : EmbState :=
  { isOpen := false, selectedAmount := 50, customInput := "", amountError := "" }

/-- handlePresetClick: set the selected amount, clear the custom input, clear
any validation error. -/
def handlePresetClick (amount : ℚ) (s : EmbState) : EmbState :=
  { s with selectedAmount := amount, customInput := "", amountError := "" }

/-- handleCustomInput: store the input text; empty input clears the error and
changes nothing else; a NaN parse, an amount below 1 or an amount above 10000
set a field error without touching selectedAmount; otherwise selectedAmount is
updated to the parsed dollar amount and the error is cleared. -/
def handleCustomInput (value : String) (s : EmbState) : EmbState :=
  let s := { s with customInput := value }
  if value = "" then { s with amountError := "" }
  else
    match jsParseFloat value with
    | none => { s with amountError := "Please enter a valid number" }
    | some amount =>
      if amount < 1 then { s with amountError := "Minimum donation is $1.00" }
      else if amount > 10000 then { s with amountError := "Maximum donation is $10,000" }
      else { s with selectedAmount := amount, amountError := "" }

/-- canProceed: selectedAmount at least one dollar, no validation error, and
the custom input is either empty or parses as a number. -/
def canProceed (s : EmbState) : Bool :=
  decide (1 ≤ s.selectedAmount) && s.amountError == ""
    && (s.customInput == "" || (jsParseFloat s.customInput).isSome)

/-- Modelled from the spec: the modals import convertToSubcurrency from
src/lib/convertToSubcurrency.ts, which is not among the provided sources.
Spec section 8 property 2 fixes the minor-unit conversion as
round(parseFloat(S) * 100): the dollar amount times 100, rounded with JS
Math.round. -/
def convertToSubcurrency (amount : ℚ) : Int := jsRound (amount * 100)

/-- The rendered Elements provider: its React key and the bound amount in
cents (options.amount). In the source both are convertToSubcurrency of the
selected amount. -/
structure ElementsNode where
  key : Int
  amount : Int
deriving DecidableEq

/-- The Elements subtree is rendered exactly when canProceed holds, keyed by
the amount in cents and bound to that amount. -/
def renderEmb (s : EmbState) : Option ElementsNode :=
  if canProceed s then
    some { key := convertToSubcurrency s.selectedAmount
           amount := convertToSubcurrency s.selectedAmount }
  else none

/-- The bound minor-unit amount of the rendered Elements provider, if any. -/
def elementsAmount (n : Option ElementsNode) : Option Int := n.map (·.amount)

/-- CheckoutPage requests a new payment intent from the create-payment-intent
route exactly when its effect on the amount fires: on mount (including a
remount forced by a key change of the Elements parent) and on a change of the
amount prop. -/
def intentRequested (prev next : Option ElementsNode) : Bool :=
  match prev, next with
  | none, some _ => true
  | some p, some n => p.key != n.key || p.amount != n.amount
  | _, none => false

end Emb

/-! ## Hosted donation modal (the DonationModal that renders CheckoutProvider
with a clientSecret created by the create-checkout-session route) -/

namespace Hosted

/-- An in-flight createSession fetch, tagged with the amount (in cents) it was
issued for and a fresh identifier. -/
structure Req where
  id : Nat
  amountInCents : Int
deriving DecidableEq

/-- A server-side checkout session as bound by its client secret: the server
creates it with the requested unit amount, and the secret is unique per
request. -/
structure Session where
  amountInCents : Int
  reqId : Nat
deriving DecidableEq

/-- The React state of the hosted DonationModal, together with the multiset of
in-flight createSession requests (pending) and, as history for specification
purposes only, the list of all issued requests, newest first (issued) and a
fresh-id counter (nextId). -/
structure ModalState where
  isOpen : Bool
  clientSecret : Option Session
  loading : Bool
  error : String
  amount : String
  selectedAmount : Option Int
  pending : List Req
  nextId : Nat
  issued : List Req
deriving DecidableEq

/-- Initial state of the hosted modal. -/
def init : ModalState :=
  { isOpen := false
    clientSecret := none
    loading := false
    error := ""
    amount := ""
    selectedAmount := none
    pending := []
    nextId := 0
    issued := [] }

/-- The four preset amounts offered by the modal, in cents. -/
def presetAmounts : List Int := [2500, 5000, 10000, 25000]

/-- createSession: set loading, clear the error, and start a fetch of the
create-checkout-session route for the given amount; the response is handled
later by a respond event. -/
def createSession (amountInCents : Int) (s : ModalState) : ModalState :=
  { s with
      loading := true
      error := ""
      pending := s.pending ++ [{ id := s.nextId, amountInCents := amountInCents }]
      issued := { id := s.nextId, amountInCents := amountInCents } :: s.issued
      nextId := s.nextId + 1 }

/-- handlePresetAmount: select the preset, clear the custom text, create a
session for it. -/
def handlePresetAmount (cents : Int) (s : ModalState) : ModalState :=
  createSession cents { s with selectedAmount := some cents, amount := "" }

/-- handleCustomAmount: parse the custom text; a NaN or zero parse (falsy
dollars) or a value below one dollar only sets the error; otherwise the amount
is committed as Math.round(dollars * 100) cents and a session is created. -/
def handleCustomAmount (s : ModalState) : ModalState :=
  match jsParseFloat s.amount with
  | none => { s with error := "Enter at least $1" }
  | some dollars =>
    if dollars = 0 ∨ dollars < 1 then { s with error := "Enter at least $1" }
    else
      createSession (jsRound (dollars * 100))
        { s with selectedAmount := some (jsRound (dollars * 100)) }

/-- handleOpenChange: store the open flag; on close also reset the selected
amount, the custom text, the error and the client secret. The loading flag and
the in-flight fetch are not touched. -/
def handleOpenChange (isOpen : Bool) (s : ModalState) : ModalState :=
  if isOpen then { s with isOpen := true }
  else
    { s with
        isOpen := false
        selectedAmount := none
        amount := ""
        error := ""
        clientSecret := none }

/-- disabled attribute of each of the four preset buttons. -/
def presetButtonDisabled (s : ModalState) : Bool := s.loading

/-- disabled attribute of the custom-amount input. -/
def customInputDisabled (s : ModalState) : Bool := s.loading

/-- disabled attribute of the Set Amount button (loading or empty text). -/
def setAmountButtonDisabled (s : ModalState) : Bool := s.loading || s.amount == ""

/-- The discrete events that drive the modal: user interactions with the
enabled controls and resolutions of in-flight createSession fetches. A
respond event with an id that is not pending, or an interaction with a
disabled or unrendered control, leaves the state unchanged. -/
inductive Ev where
  | presetClick (cents : Int)
  | typeCustom (value : String)
  | setAmountClick
  | respondOk (rid : Nat)
  | respondErr (rid : Nat) (msg : String)
  | openChange (isOpen : Bool)

/-- One step of the modal. User events fire only when the dialog content is
rendered (modal open) and the control is enabled; the custom input only ever
reports a valid floating-point number string or the empty string, because it
is a number input. On a successful response the handler stores the returned
client secret (which the server bound to the requested amount) and clears
loading; on a failed response it stores the error message and clears loading;
neither checks whether the request is still the current one. -/
def step (s : ModalState) : Ev → ModalState
  | .presetClick cents =>
    if s.isOpen && !presetButtonDisabled s && presetAmounts.contains cents then
      handlePresetAmount cents s
    else s
  | .typeCustom value =>
    if s.isOpen && !customInputDisabled s && (value == "" || isValidFp value) then
      { s with amount := value }
    else s
  | .setAmountClick =>
    if s.isOpen && !setAmountButtonDisabled s then handleCustomAmount s else s
  | .respondOk rid =>
    match s.pending.find? (fun r => r.id == rid) with
    | some r =>
      { s with
          pending := s.pending.filter (fun r2 => r2.id != rid)
          clientSecret := some { amountInCents := r.amountInCents, reqId := r.id }
          loading := false }
    | none => s
  | .respondErr rid msg =>
    match s.pending.find? (fun r => r.id == rid) with
    | some _ =>
      { s with
          pending := s.pending.filter (fun r2 => r2.id != rid)
          error := msg
          loading := false }
    | none => s
  | .openChange b => handleOpenChange b s

/-- The state reached from the initial state by a list of events. -/
def reach (es : List Ev) : ModalState := es.foldl step init

/-- The rendered CheckoutProvider: the source renders it with no key, so its
React identity is determined by position alone. -/
structure ProviderNode where
  key : Option Int
  clientSecret : Session
deriving DecidableEq

/-- JavaScript truthiness of the selectedAmount state (null and 0 are falsy). -/
def truthyAmount : Option Int → Bool
  | none => false
  | some n => n != 0

/-- The CheckoutProvider subtree is rendered exactly when the dialog content is
mounted and clientSecret and selectedAmount are truthy; the source passes no
key prop. -/
def renderHosted (s : ModalState) : Option ProviderNode :=
  match s.clientSecret with
  | some cs =>
    if s.isOpen && truthyAmount s.selectedAmount then
      some { key := none, clientSecret := cs }
    else none
  | none => none

/-- React reconciliation for a single child position: the widget instance
survives from one render to the next exactly when both renders mount the same
component there with equal keys; otherwise the old instance is torn down. -/
def sameInstance (prev next : Option ProviderNode) : Bool :=
  match prev, next with
  | some p, some n => p.key == n.key
  | _, _ => false

end Hosted

/-! ## CheckoutForm (the submission form rendered inside CheckoutProvider) -/

namespace Form

/-- The status reported by useCheckout: the form with the submit handler is
rendered only in the success case; the loading and error cases render plain
text instead. -/
inductive CheckoutStatus where
  | loading
  | error (msg : String)
  | success
deriving DecidableEq

/-- The React state of CheckoutForm. -/
structure FormState where
  submitting : Bool
  error : String
  email : String
deriving DecidableEq

/-- Initial state of a freshly mounted CheckoutForm. -/
def initForm : FormState := { submitting := false, error := "", email := "" }

/-- handleSubmit up to its first suspension point: returns the updated state
and whether checkout.confirm was called. The handler returns without any state
change unless the checkout status is success; an empty email or one without an
at sign sets the inline error and does not call confirm; otherwise submitting
is set, the error is cleared and confirm is called with the email. -/
def handleSubmit (ck : CheckoutStatus) (f : FormState) : FormState × Bool :=
  if ck ≠ CheckoutStatus.success then (f, false)
  else if f.email = "" || !(jsIncludes f.email '@') then
    ({ f with error := "Please enter a valid email address" }, false)
  else ({ f with submitting := true, error := "" }, true)

/-- disabled attribute of the Complete Donation submit button. -/
def submitDisabled (f : FormState) : Bool := f.submitting

/-- When handleSubmit calls confirm, it has set the submitting flag. -/
theorem handleSubmit_confirm {ck : CheckoutStatus} {f : FormState}
    (h : (handleSubmit ck f).2 = true) : (handleSubmit ck f).1.submitting = true := by
  by_cases h1 : ck ≠ CheckoutStatus.success
  · simp [handleSubmit, h1] at h
  · by_cases h2 : (decide (f.email = "") || !(jsIncludes f.email '@')) = true
    · simp [handleSubmit, h1, h2] at h
    · simp [handleSubmit, h1, h2]

/-- The form component state together with whether a checkout.confirm call is
in flight. -/
structure FormMachine where
  form : FormState
  confirmPending : Bool
deriving DecidableEq

/-- Initial machine: freshly mounted form, no confirm call in flight. -/
def formInit : FormMachine := { form := initForm, confirmPending := false }

/-- Events of the rendered (checkout status success) form: typing in the email
input, activating the submit trigger, and resolution of a confirm call with an
error result (result.type equal to error) or with success (in which case the
provider redirects and the handler changes nothing further). -/
inductive FormEv where
  | emailInput (s : String)
  | submitClick
  | confirmErr (msg : String)
  | confirmOk

/-- One step of the form. The submit trigger does nothing while it is
disabled (submitting); a confirm error sets the inline error to the result
message (or Payment failed when it is empty) and clears submitting, re-enabling
the trigger; a confirm success leaves submitting set, as the source never
clears it on the success path. -/
def formStep (m : FormMachine) : FormEv → FormMachine
  | .emailInput s => { m with form := { m.form with email := s } }
  | .submitClick =>
    if submitDisabled m.form then m
    else
      let fc := handleSubmit CheckoutStatus.success m.form
      { form := fc.1, confirmPending := m.confirmPending || fc.2 }
  | .confirmErr msg =>
    if m.confirmPending then
      { form :=
          { m.form with
              error := if msg = "" then "Payment failed" else msg
              submitting := false }
        confirmPending := false }
    else m
  | .confirmOk =>
    if m.confirmPending then { m with confirmPending := false } else m

/-- The form state reached from a fresh mount by a list of events. -/
def reachForm (es : List FormEv) : FormMachine := es.foldl formStep formInit

end Form

/-! ## API routes -/

/-- The body of a JSON response produced by one of the API routes. -/
inductive ApiBody where
  | clientSecret (s : String)
  | error (msg : String)
  | sessionData (status : String) (amount_total : Option Int) (currency : Option String)
deriving DecidableEq

/-- An HTTP response: status code and JSON body. -/
structure ApiResponse where
  status : Nat
  body : ApiBody
deriving DecidableEq

/-- Is the status code in the 4xx class? -/
def is4xx (n : Nat) : Bool := 400 ≤ n && n < 500

/-- Does the body carry a clientSecret? -/
def isClientSecretBody : ApiBody → Bool
  | .clientSecret _ => true
  | _ => false

namespace CreatePaymentIntent

/-- Maximum amount accepted by the create-payment-intent route, in cents. -/
def MAX_AMOUNT : ℚ := 1000000

/-- The create-payment-intent POST handler. The upstream parameter models
stripe.paymentIntents.create, mapping the amount to the intent client secret
or to a Stripe error. The source guard is
(not amount) or (typeof amount is not number) or (amount less-or-equal 0);
for a numeric amount the falsy case is exactly 0, so the guard collapses to
the amount being non-numeric or at most 0. -/
def POST (upstream : ℚ → Except String String) (amount : JVal) : ApiResponse :=
  match amount with
  | .num q =>
    if q ≤ 0 then
      { status := 400
        body := .error "Invalid amount. Amount must be a positive number in cents." }
    else if q > MAX_AMOUNT then
      { status := 400, body := .error "Amount exceeds maximum allowed ($10000)" }
    else
      match upstream q with
      | .ok secret => { status := 200, body := .clientSecret secret }
      | .error _ =>
        { status := 500, body := .error "Payment initialization failed. Please try again." }
  | _ =>
    { status := 400
      body := .error "Invalid amount. Amount must be a positive number in cents." }

end CreatePaymentIntent

namespace CreateCheckoutSession

/-- The create-checkout-session POST handler: no validation of the amount; it
is forwarded as the unit_amount of the session created upstream. The upstream
parameter models stripe.checkout.sessions.create, returning the session client
secret or throwing; a thrown error is caught and surfaced as a 500 with the
error message. -/
def POST (upstream : JVal → Except String String) (amount : JVal) : ApiResponse :=
  match upstream amount with
  | .ok secret => { status := 200, body := .clientSecret secret }
  | .error msg => { status := 500, body := .error msg }

/-- A concrete upstream behaving like the real payment backend: it rejects a
non-positive unit_amount and any non-numeric one with an error, and returns a
client secret otherwise. -/
def strictUpstream : JVal → Except String String
  | .num q => if q ≤ 0 then .error "This value must be greater than or equal to 1." else .ok "cs_test_secret"
  | _ => .error "Invalid integer: undefined"

end CreateCheckoutSession

namespace VerifySession

/-- A checkout session as retrieved from the payment backend. -/
structure StripeSession where
  status : String
  amount_total : Option Int
  currency : Option String
deriving DecidableEq

/-- The verify-session GET handler. The retrieve parameter models
stripe.checkout.sessions.retrieve, and sessionId the session_id query
parameter (none when absent). The guard (not sessionId) treats both an absent
parameter and an empty value as missing; an upstream failure is caught and
returned as a 500 with the error message. -/
def GET (retrieve : String → Except String StripeSession) (sessionId : Option String) :
    ApiResponse :=
  match sessionId with
  | none => { status := 400, body := .error "No session ID" }
  | some sid =>
    if sid = "" then { status := 400, body := .error "No session ID" }
    else
      match retrieve sid with
      | .ok sess =>
        { status := 200, body := .sessionData sess.status sess.amount_total sess.currency }
      | .error e => { status := 500, body := .error e }

end VerifySession

/-! ## Invariants of the hosted modal machine -/

/-- A list with at most one element containing a is the singleton of a. -/
theorem eq_singleton_of_length_le_one {α : Type} {l : List α} {a : α}
    (h1 : l.length ≤ 1) (h2 : a ∈ l) : l = [a] := by
  cases l with
  | nil => cases h2
  | cons b t =>
    cases t with
    | nil =>
      simp only [List.mem_singleton] at h2
      simp [h2]
    | cons c u => simp at h1

namespace Hosted

/-- Invariant of the hosted modal: at most one createSession request is in
flight, the loading flag holds exactly while one is, and any in-flight request
is the most recently issued one. -/
def Inv (s : ModalState) : Prop :=
  s.pending.length ≤ 1 ∧
  (s.loading = true ↔ s.pending ≠ []) ∧
  ∀ r ∈ s.pending, s.issued.head? = some r

theorem inv_init : Inv init := by
  refine ⟨by simp [init], by simp [init], ?_⟩
  intro r hr
  simp [init] at hr

/-- While a request is in flight, loading is set; conversely, when loading is
clear there is no in-flight request. -/
theorem pending_nil_of_not_loading {s : ModalState} (h : Inv s)
    (hl : s.loading = false) : s.pending = [] := by
  by_contra hne
  have := h.2.1.mpr hne
  rw [hl] at this
  exact Bool.false_ne_true this

/-- createSession preserves the invariant when no request is in flight. -/
theorem inv_createSession {s : ModalState} (h : Inv s) (hl : s.loading = false)
    (c : Int) (f : ModalState) (hf : f.pending = s.pending ∧ f.nextId = s.nextId ∧
      f.issued = s.issued) : Inv (createSession c f) := by
  have hp : s.pending = [] := pending_nil_of_not_loading h hl
  obtain ⟨hfp, hfn, hfi⟩ := hf
  refine ⟨?_, ?_, ?_⟩
  · simp [createSession, hfp, hp]
  · simp [createSession, hfp, hp]
  · intro r hr
    simp only [createSession, hfp, hp, List.nil_append, List.mem_singleton] at hr
    simp [createSession, hr]

/-- Every event preserves the invariant. -/
theorem inv_step {s : ModalState} (h : Inv s) (e : Ev) : Inv (step s e) := by
  cases e with
  | presetClick c =>
    simp only [step]
    split
    · rename_i hc
      simp only [Bool.and_eq_true, Bool.not_eq_true', presetButtonDisabled] at hc
      exact inv_createSession h hc.1.2 c _ ⟨rfl, rfl, rfl⟩
    · exact h
  | typeCustom v =>
    simp only [step]
    split
    · exact h
    · exact h
  | setAmountClick =>
    simp only [step]
    split
    · rename_i hc
      simp only [Bool.and_eq_true, Bool.not_eq_true', setAmountButtonDisabled,
        Bool.or_eq_false_iff] at hc
      have hl : s.loading = false := hc.2.1
      simp only [handleCustomAmount]
      split
      · exact h
      · split
        · exact h
        · exact inv_createSession h hl _ _ ⟨rfl, rfl, rfl⟩
    · exact h
  | respondOk rid =>
    simp only [step]
    split
    · rename_i r heq
      have hmem : r ∈ s.pending := List.mem_of_find?_eq_some heq
      have hid : (r.id == rid) = true := by simpa using List.find?_some heq
      have hone : s.pending = [r] := eq_singleton_of_length_le_one h.1 hmem
      have hfil : s.pending.filter (fun r2 => r2.id != rid) = [] := by
        simp [hone, bne, hid]
      refine ⟨by simp [hfil], by simp [hfil], ?_⟩
      intro r' hr'
      simp [hfil] at hr'
    · exact h
  | respondErr rid msg =>
    simp only [step]
    split
    · rename_i r heq
      have hmem : r ∈ s.pending := List.mem_of_find?_eq_some heq
      have hid : (r.id == rid) = true := by simpa using List.find?_some heq
      have hone : s.pending = [r] := eq_singleton_of_length_le_one h.1 hmem
      have hfil : s.pending.filter (fun r2 => r2.id != rid) = [] := by
        simp [hone, bne, hid]
      refine ⟨by simp [hfil], by simp [hfil], ?_⟩
      intro r' hr'
      simp [hfil] at hr'
    · exact h
  | openChange b =>
    simp only [step, handleOpenChange]
    split
    · exact h
    · exact h

/-- The valid branch of handleCustomAmount: a parse of at least one dollar
commits Math.round(dollars times 100) cents and issues a request for it. -/
theorem handleCustomAmount_commits {t : ModalState} {d : ℚ}
    (hp : jsParseFloat t.amount = some d) (hd : 1 ≤ d) :
    (handleCustomAmount t).selectedAmount = some (jsRound (d * 100)) ∧
    (handleCustomAmount t).issued =
      { id := t.nextId, amountInCents := jsRound (d * 100) } :: t.issued ∧
    (handleCustomAmount t).loading = true ∧
    (handleCustomAmount t).error = "" := by
  have h0 : ¬(d = 0 ∨ d < 1) := by
    push_neg
    constructor
    · intro h
      rw [h] at hd
      linarith
    · linarith
  simp [handleCustomAmount, hp, h0, createSession]

/-- Every reachable state of the hosted modal satisfies the invariant. -/
theorem inv_reach (es : List Ev) : Inv (reach es) := by
  suffices h : ∀ s, Inv s → Inv (es.foldl step s) from h init inv_init
  induction es with
  | nil => intro s hs; exact hs
  | cons e t ih =>
    intro s hs
    exact ih (step s e) (inv_step hs e)

end Hosted

/-! ## Invariant of the form machine -/

namespace Form

/-- Invariant of the form machine: while a confirm call is in flight the
submitting flag is set (and hence the submit trigger is disabled). -/
def FormInv (m : FormMachine) : Prop :=
  m.confirmPending = true → m.form.submitting = true

theorem formInv_init : FormInv formInit := by
  intro h
  simp [formInit] at h

/-- Every event preserves the form invariant. -/
theorem formInv_step {m : FormMachine} (h : FormInv m) (e : FormEv) :
    FormInv (formStep m e) := by
  cases e with
  | emailInput v =>
    intro hp
    exact h hp
  | submitClick =>
    simp only [formStep]
    split
    · exact h
    · rename_i hd
      simp only [submitDisabled, Bool.not_eq_true] at hd
      intro hp
      simp only [Bool.or_eq_true] at hp
      rcases hp with hp | hp
      · rw [h hp] at hd
        exact absurd hd (by simp)
      · exact handleSubmit_confirm hp
  | confirmErr msg =>
    simp only [formStep]
    split
    · intro hp
      simp at hp
    · exact h
  | confirmOk =>
    simp only [formStep]
    split
    · intro hp
      simp at hp
    · exact h

/-- Every reachable state of the form machine satisfies the invariant. -/
theorem formInv_reach (es : List FormEv) : FormInv (reachForm es) := by
  suffices h : ∀ m, FormInv m → FormInv (es.foldl formStep m) from h formInit formInv_init
  induction es with
  | nil => intro m hm; exact hm
  | cons e t ih =>
    intro m hm
    exact ih (formStep m e) (formInv_step hm e)

end Form

/-! ## Claims about the hosted modal machine -/

/-- Claim C1: if the contribution amount is changed while a session-creation
request is in flight, the final bound session is the one for the most recently
committed amount, and a response for a superseded amount never overwrites
newer state. The code guarantees this by disabling every amount-committing
control while a request is in flight, so there is never more than one
in-flight request and the only response that can resolve belongs to the most
recently committed amount: whenever a successful session-creation response
lands, the request it answers is the newest issued one and the stored client
secret is the session bound to that amount, regardless of when it resolves. -/
theorem C1_response_binds_newest_amount (es : List Hosted.Ev) (rid : Nat)
    (r : Hosted.Req) (hmem : r ∈ (Hosted.reach es).pending) (hid : r.id = rid) :
    (Hosted.reach es).pending.length ≤ 1 ∧
    (Hosted.reach es).issued.head? = some r ∧
    (Hosted.step (Hosted.reach es) (.respondOk rid)).clientSecret =
      some { amountInCents := r.amountInCents, reqId := r.id } := by
  have h := Hosted.inv_reach es
  have hone : (Hosted.reach es).pending = [r] := eq_singleton_of_length_le_one h.1 hmem
  refine ⟨h.1, h.2.2 r hmem, ?_⟩
  subst hid
  simp [Hosted.step, hone, List.find?]

/-- Witness for C1: after opening the modal and clicking the 25 dollar preset,
a request for 2500 cents is in flight, and its resolution stores the session
bound to 2500 cents. -/
theorem C1_witness :
    (Hosted.reach [.openChange true, .presetClick 2500]).pending.length ≤ 1 ∧
    (Hosted.reach [.openChange true, .presetClick 2500]).issued.head? =
      some { id := 0, amountInCents := 2500 } ∧
    (Hosted.step (Hosted.reach [.openChange true, .presetClick 2500])
      (.respondOk 0)).clientSecret = some { amountInCents := 2500, reqId := 0 } :=
  C1_response_binds_newest_amount [.openChange true, .presetClick 2500] 0
    { id := 0, amountInCents := 2500 } (by decide) rfl

/-- Claim C10: while a session-creation request is in flight (loading), all
four preset buttons, the custom-amount input and the Set Amount button are
disabled, and consequently at most one session-creation request is ever in
flight. -/
theorem C10_controls_disabled_single_flight (es : List Hosted.Ev) :
    ((Hosted.reach es).loading = true →
      Hosted.presetButtonDisabled (Hosted.reach es) = true ∧
      Hosted.customInputDisabled (Hosted.reach es) = true ∧
      Hosted.setAmountButtonDisabled (Hosted.reach es) = true) ∧
    (Hosted.reach es).pending.length ≤ 1 := by
  refine ⟨?_, (Hosted.inv_reach es).1⟩
  intro hl
  exact ⟨hl, hl, by simp [Hosted.setAmountButtonDisabled, hl]⟩

/-- Witness for C10: right after clicking the 50 dollar preset a request is in
flight and every amount control is disabled. -/
theorem C10_witness :
    Hosted.presetButtonDisabled (Hosted.reach [.openChange true, .presetClick 5000]) = true ∧
    Hosted.customInputDisabled (Hosted.reach [.openChange true, .presetClick 5000]) = true ∧
    Hosted.setAmountButtonDisabled (Hosted.reach [.openChange true, .presetClick 5000]) = true ∧
    (Hosted.reach [.openChange true, .presetClick 5000]).pending.length ≤ 1 := by
  have h := C10_controls_disabled_single_flight [.openChange true, .presetClick 5000]
  have hl : (Hosted.reach [.openChange true, .presetClick 5000]).loading = true := by decide
  exact ⟨(h.1 hl).1, (h.1 hl).2.1, (h.1 hl).2.2, h.2⟩

/-- The trace refuting claim C6: open, click the 25 dollar preset (a request
goes in flight), close the modal mid-flight, reopen. -/
def c6trace : List Hosted.Ev :=
  [.openChange true, .presetClick 2500, .openChange false, .openChange true]

/-- Claim C6 counterexample: closing the modal mid-flight does not fully reset
the checkout. After reopening, the loading flag from the previous attempt is
still set (the flow does not restart from idle), and when the abandoned
request then resolves, its session token is written into the reopened modal:
a residual session token from the previous attempt. -/
theorem C6_counterexample :
    (Hosted.reach c6trace).isOpen = true ∧
    (Hosted.reach c6trace).loading = true ∧
    (Hosted.reach c6trace).clientSecret = none ∧
    (Hosted.step (Hosted.reach c6trace) (.respondOk 0)).clientSecret =
      some { amountInCents := 2500, reqId := 0 } := by decide

/-- Claim C6 as amended: closing the modal immediately resets the selected
amount, the custom-amount text, the error message and the session token, and
unmounts the payment widget subtree (discarding the donor input held in the
form's state); but the loading flag is not reset and an in-flight
session-creation request is not cancelled, so its later resolution still
writes a session token or error into the (possibly reopened) modal. -/
theorem C6_close_resets_fields (es : List Hosted.Ev) :
    (Hosted.step (Hosted.reach es) (.openChange false)).selectedAmount = none ∧
    (Hosted.step (Hosted.reach es) (.openChange false)).amount = "" ∧
    (Hosted.step (Hosted.reach es) (.openChange false)).error = "" ∧
    (Hosted.step (Hosted.reach es) (.openChange false)).clientSecret = none ∧
    Hosted.renderHosted (Hosted.step (Hosted.reach es) (.openChange false)) = none ∧
    (Hosted.step (Hosted.reach es) (.openChange false)).loading =
      (Hosted.reach es).loading ∧
    (Hosted.step (Hosted.reach es) (.openChange false)).pending =
      (Hosted.reach es).pending := by
  refine ⟨rfl, rfl, rfl, rfl, ?_, rfl, rfl⟩
  simp [Hosted.step, Hosted.handleOpenChange, Hosted.renderHosted]

/-- The trace used against claim C7: open, click the 25 dollar preset, let the
session-creation request succeed. -/
def c7trace : List Hosted.Ev := [.openChange true, .presetClick 2500, .respondOk 0]

/-- Claim C7 counterexample: with 2500 cents already selected and its session
created, clicking the same 25 dollar preset again issues a second
session-creation request: re-selecting the currently selected preset is not a
no-op in the hosted modal. -/
theorem C7_counterexample :
    (Hosted.reach c7trace).selectedAmount = some 2500 ∧
    (Hosted.reach c7trace).loading = false ∧
    (Hosted.reach c7trace).issued.length = 1 ∧
    (Hosted.step (Hosted.reach c7trace) (.presetClick 2500)).issued.length = 2 := by decide

/-- Claim C7 as amended: in the embedded modal, re-selecting the currently
selected preset (custom input empty, no validation error) leaves the state
unchanged, so the keyed Elements widget is not remounted and no new payment
intent is requested; in the hosted modal, every enabled preset click —
including a re-selection of the current preset — issues a fresh
session-creation request. -/
theorem C7_preset_reselect (s : Emb.EmbState) (a : ℚ) (es : List Hosted.Ev) (c : Int)
    (h1 : s.selectedAmount = a) (h2 : s.customInput = "") (h3 : s.amountError = "")
    (hc : Hosted.presetAmounts.contains c = true)
    (ho : (Hosted.reach es).isOpen = true) (hl : (Hosted.reach es).loading = false) :
    Emb.handlePresetClick a s = s ∧
    Emb.intentRequested (Emb.renderEmb s) (Emb.renderEmb (Emb.handlePresetClick a s)) = false ∧
    (Hosted.step (Hosted.reach es) (.presetClick c)).issued.length =
      (Hosted.reach es).issued.length + 1 := by
  have he : Emb.handlePresetClick a s = s := by
    cases s
    simp_all [Emb.handlePresetClick]
  refine ⟨he, ?_, ?_⟩
  · rw [he]
    cases hr : Emb.renderEmb s with
    | none => simp [Emb.intentRequested]
    | some n => simp [Emb.intentRequested]
  · have hc2 : c ∈ Hosted.presetAmounts := by simpa using hc
    simp [Hosted.step, hc, hc2, ho, hl, Hosted.presetButtonDisabled,
      Hosted.handlePresetAmount, Hosted.createSession]

/-- Witness for the amended C7: a concrete embedded state with the 50 dollar
preset selected, and the hosted trace of C7. -/
theorem C7_witness :
    Emb.handlePresetClick 50 { isOpen := true, selectedAmount := 50, customInput := "", amountError := "" } =
      { isOpen := true, selectedAmount := 50, customInput := "", amountError := "" } ∧
    Emb.intentRequested
      (Emb.renderEmb { isOpen := true, selectedAmount := 50, customInput := "", amountError := "" })
      (Emb.renderEmb (Emb.handlePresetClick 50
        { isOpen := true, selectedAmount := 50, customInput := "", amountError := "" })) = false ∧
    (Hosted.step (Hosted.reach c7trace) (.presetClick 2500)).issued.length =
      (Hosted.reach c7trace).issued.length + 1 :=
  C7_preset_reselect
    { isOpen := true, selectedAmount := 50, customInput := "", amountError := "" }
    50 c7trace 2500 rfl rfl rfl (by decide) (by decide) (by decide)

/-- Traces exhibiting the C5 bug: the 25 dollar session is created and bound,
then the 50 dollar preset is clicked and its session resolves. -/
def c5traceA : List Hosted.Ev := [.openChange true, .presetClick 2500, .respondOk 0]

/-- c5traceA extended by the 50 dollar preset click. -/
def c5traceB : List Hosted.Ev := c5traceA ++ [.presetClick 5000]

/-- c5traceB extended by the successful response for the 50 dollar session. -/
def c5traceC : List Hosted.Ev := c5traceB ++ [.respondOk 1]

/-- Claim C5: the payment widget must be fully torn down and reconstructed
whenever its bound session token changes. The hosted modal violates this: it
renders CheckoutProvider without a key, so when the session token changes from
the 2500-cent session to the 5000-cent session the provider stays mounted at
the same position with an equal (absent) key across every intermediate render
— React keeps the same widget instance and merely re-renders it with mutated
options, instead of tearing it down and constructing a fresh instance. The
sibling embedded modal keys Elements by the amount precisely to avoid this. -/
theorem C5_provider_not_remounted :
    Hosted.renderHosted (Hosted.reach c5traceA) =
      some { key := none, clientSecret := { amountInCents := 2500, reqId := 0 } } ∧
    Hosted.sameInstance (Hosted.renderHosted (Hosted.reach c5traceA))
      (Hosted.renderHosted (Hosted.reach c5traceB)) = true ∧
    Hosted.sameInstance (Hosted.renderHosted (Hosted.reach c5traceB))
      (Hosted.renderHosted (Hosted.reach c5traceC)) = true ∧
    Hosted.renderHosted (Hosted.reach c5traceC) =
      some { key := none, clientSecret := { amountInCents := 5000, reqId := 1 } } := by decide

/-! ## Claims about CheckoutForm -/

/-- Claim C4: on a submission attempt with an empty email or one without an at
sign, checkout.confirm is never called, and — on the rendered form, whose
submit handler only runs with checkout status success — the inline error
"Please enter a valid email address" is shown. -/
theorem C4_invalid_email_no_confirm (ck : Form.CheckoutStatus) (f : Form.FormState)
    (h : f.email = "" ∨ jsIncludes f.email '@' = false) :
    (Form.handleSubmit ck f).2 = false ∧
    (ck = Form.CheckoutStatus.success →
      (Form.handleSubmit ck f).1.error = "Please enter a valid email address") := by
  have hb : (decide (f.email = "") || !(jsIncludes f.email '@')) = true := by
    rcases h with h | h <;> simp [h]
  by_cases h1 : ck = Form.CheckoutStatus.success
  · subst h1
    simp [Form.handleSubmit, hb]
  · refine ⟨?_, fun he => absurd he h1⟩
    simp [Form.handleSubmit, h1]

/-- Witness for C4: a freshly mounted form has an empty email, so submitting
it calls no confirmation and shows the inline error. -/
theorem C4_witness :
    (Form.handleSubmit Form.CheckoutStatus.success Form.initForm).2 = false ∧
    (Form.handleSubmit Form.CheckoutStatus.success Form.initForm).1.error =
      "Please enter a valid email address" := by
  have h := C4_invalid_email_no_confirm Form.CheckoutStatus.success Form.initForm (Or.inl rfl)
  exact ⟨h.1, h.2 rfl⟩

/-- Claim C9: while a confirmation is in progress the submit trigger is
disabled (it is disabled exactly when submitting, submitting holds whenever a
confirm call is in flight, and activating the disabled trigger changes
nothing), so a second concurrent confirmation can never be started; and when
the confirmation resolves with an error the submitting flag is cleared,
re-enabling retry. -/
theorem C9_no_concurrent_confirm (es : List Form.FormEv) (msg : String) :
    Form.submitDisabled (Form.reachForm es).form = (Form.reachForm es).form.submitting ∧
    ((Form.reachForm es).form.submitting = true →
      Form.formStep (Form.reachForm es) .submitClick = Form.reachForm es) ∧
    ((Form.reachForm es).confirmPending = true →
      (Form.reachForm es).form.submitting = true) ∧
    ((Form.reachForm es).confirmPending = true →
      (Form.formStep (Form.reachForm es) (.confirmErr msg)).form.submitting = false ∧
      (Form.formStep (Form.reachForm es) (.confirmErr msg)).confirmPending = false) := by
  refine ⟨rfl, ?_, Form.formInv_reach es, ?_⟩
  · intro hs
    simp [Form.formStep, Form.submitDisabled, hs]
  · intro hp
    simp [Form.formStep, hp]

/-- Witness for C9: after entering a valid email and submitting, a confirm
call is in flight, a second submit is a no-op, and an error result clears the
submitting flag. -/
theorem C9_witness :
    Form.formStep (Form.reachForm [.emailInput "a@b.com", .submitClick]) .submitClick =
      Form.reachForm [.emailInput "a@b.com", .submitClick] ∧
    (Form.reachForm [.emailInput "a@b.com", .submitClick]).form.submitting = true ∧
    (Form.reachForm [.emailInput "a@b.com", .submitClick]).confirmPending = true ∧
    (Form.formStep (Form.reachForm [.emailInput "a@b.com", .submitClick])
      (.confirmErr "Your card was declined.")).form.submitting = false ∧
    (Form.formStep (Form.reachForm [.emailInput "a@b.com", .submitClick])
      (.confirmErr "Your card was declined.")).confirmPending = false := by
  have h := C9_no_concurrent_confirm [.emailInput "a@b.com", .submitClick]
    "Your card was declined."
  have hs : (Form.reachForm [.emailInput "a@b.com", .submitClick]).form.submitting = true := by
    decide
  have hp : (Form.reachForm [.emailInput "a@b.com", .submitClick]).confirmPending = true := by
    decide
  exact ⟨h.2.1 hs, hs, hp, (h.2.2.2 hp).1, (h.2.2.2 hp).2⟩

/-! ## Claims about amount validation -/

/-- parseDecimal of the literal 20000. -/
theorem parseDecimal_20000 :
    parseDecimal "20000" =
      some { neg := false, intPart := ['2', '0', '0', '0', '0'], fracPart := [], exp := 0 } := by
  decide

/-- parseFloat of the literal 20000. -/
theorem jsParseFloat_20000 : jsParseFloat "20000" = some 20000 := by
  rw [jsParseFloat, parseDecimal_20000]
  have hip : natOfDigits ['2', '0', '0', '0', '0'] = 20000 := by decide
  have hfp : natOfDigits ([] : List Char) = 0 := rfl
  norm_num [ratOfParsed, hip, hfp]

/-- parseDecimal of the literal 12.34. -/
theorem parseDecimal_12_34 :
    parseDecimal "12.34" =
      some { neg := false, intPart := ['1', '2'], fracPart := ['3', '4'], exp := 0 } := by
  decide

/-- parseFloat of the literal 12.34. -/
theorem jsParseFloat_12_34 : jsParseFloat "12.34" = some (617 / 50) := by
  rw [jsParseFloat, parseDecimal_12_34]
  have hip : natOfDigits ['1', '2'] = 12 := by decide
  have hfp : natOfDigits ['3', '4'] = 34 := by decide
  norm_num [ratOfParsed, hip, hfp]

/-- Math.round of 20000 dollars in cents. -/
theorem jsRound_2000000 : jsRound ((20000 : ℚ) * 100) = 2000000 := by
  norm_num [jsRound]

/-- Math.round of 12.34 dollars in cents. -/
theorem jsRound_1234 : jsRound ((617 / 50 : ℚ) * 100) = 1234 := by
  norm_num [jsRound]

/-- The hosted state used in the C2 counterexample: modal open, custom text
20000 typed. -/
def c2hostedState : Hosted.ModalState := { Hosted.init with isOpen := true, amount := "20000" }

/-- Claim C2 counterexample, two deviations. First, in the embedded modal the
empty input string parses to NaN but shows no validation error (it clears the
error instead of setting one). Second, in the hosted modal the string 20000
parses above the 10000-dollar maximum yet no error is raised: the amount is
committed as 2000000 cents and a session-creation request is issued, because
handleCustomAmount enforces no upper bound. -/
theorem C2_counterexample :
    jsParseFloat "" = none ∧
    (Emb.handleCustomInput "" Emb.embInit).amountError = "" ∧
    (Emb.handleCustomInput "" Emb.embInit).selectedAmount = Emb.embInit.selectedAmount ∧
    jsParseFloat "20000" = some 20000 ∧
    c2hostedState.selectedAmount = none ∧
    (Hosted.handleCustomAmount c2hostedState).selectedAmount = some 2000000 ∧
    (Hosted.handleCustomAmount c2hostedState).error = "" ∧
    (Hosted.handleCustomAmount c2hostedState).issued.length = 1 := by
  have hp : jsParseFloat c2hostedState.amount = some 20000 := jsParseFloat_20000
  have hca := Hosted.handleCustomAmount_commits hp (by norm_num)
  refine ⟨by decide, rfl, rfl, jsParseFloat_20000, rfl, ?_, hca.2.2.2, ?_⟩
  · rw [hca.1, jsRound_2000000]
  · rw [hca.2.1]
    rfl

/-- Claim C2 as amended. Embedded modal: the empty string leaves the amount
unchanged and clears the error; a NaN parse, a value below 1 dollar or a value
above 10000 dollars leaves the amount unchanged and shows the corresponding
field error; otherwise selectedAmount becomes the parsed dollar value, the
error is cleared, and the widget is bound to round(parseFloat(S) times 100)
minor units. Hosted modal: Set Amount enforces only the 1-dollar minimum — a
NaN, zero or below-1 parse leaves the state unchanged except for the error
"Enter at least $1", while any parse of at least 1 dollar (with no upper
bound) commits round(parseFloat(S) times 100) cents and issues a
session-creation request for exactly that amount. -/
theorem C2_amount_validation (s : Emb.EmbState) (S : String) (t : Hosted.ModalState) :
    ((S = "" → (Emb.handleCustomInput S s).selectedAmount = s.selectedAmount ∧
      (Emb.handleCustomInput S s).amountError = "") ∧
    (S ≠ "" → jsParseFloat S = none →
      (Emb.handleCustomInput S s).selectedAmount = s.selectedAmount ∧
      (Emb.handleCustomInput S s).amountError = "Please enter a valid number") ∧
    (∀ d : ℚ, S ≠ "" → jsParseFloat S = some d → d < 1 →
      (Emb.handleCustomInput S s).selectedAmount = s.selectedAmount ∧
      (Emb.handleCustomInput S s).amountError = "Minimum donation is $1.00") ∧
    (∀ d : ℚ, S ≠ "" → jsParseFloat S = some d → 1 ≤ d → 10000 < d →
      (Emb.handleCustomInput S s).selectedAmount = s.selectedAmount ∧
      (Emb.handleCustomInput S s).amountError = "Maximum donation is $10,000") ∧
    (∀ d : ℚ, S ≠ "" → jsParseFloat S = some d → 1 ≤ d → d ≤ 10000 →
      (Emb.handleCustomInput S s).selectedAmount = d ∧
      (Emb.handleCustomInput S s).amountError = "" ∧
      Emb.elementsAmount (Emb.renderEmb (Emb.handleCustomInput S s)) =
        some (jsRound (d * 100)))) ∧
    ((jsParseFloat t.amount = none →
      Hosted.handleCustomAmount t = { t with error := "Enter at least $1" }) ∧
    (∀ d : ℚ, jsParseFloat t.amount = some d → d < 1 →
      Hosted.handleCustomAmount t = { t with error := "Enter at least $1" }) ∧
    (∀ d : ℚ, jsParseFloat t.amount = some d → 1 ≤ d →
      (Hosted.handleCustomAmount t).selectedAmount = some (jsRound (d * 100)) ∧
      (Hosted.handleCustomAmount t).issued.head? =
        some { id := t.nextId, amountInCents := jsRound (d * 100) } ∧
      (Hosted.handleCustomAmount t).loading = true ∧
      (Hosted.handleCustomAmount t).error = "")) := by
  refine ⟨⟨?_, ?_, ?_, ?_, ?_⟩, ⟨?_, ?_, ?_⟩⟩
  · intro hS
    simp [Emb.handleCustomInput, hS]
  · intro hS hp
    simp [Emb.handleCustomInput, hS, hp]
  · intro d hS hp hd
    have hd2 : ¬(1 : ℚ) ≤ d := by linarith
    simp [Emb.handleCustomInput, hS, hp, hd, hd2]
  · intro d hS hp hd1 hd2
    have h3 : ¬d < (1 : ℚ) := by linarith
    simp [Emb.handleCustomInput, hS, hp, h3, hd2]
  · intro d hS hp hd1 hd2
    have h3 : ¬d < (1 : ℚ) := by linarith
    have h4 : ¬(10000 : ℚ) < d := by linarith
    have hres : Emb.handleCustomInput S s =
        { s with customInput := S, selectedAmount := d, amountError := "" } := by
      simp [Emb.handleCustomInput, hS, hp, h3, h4]
    have hcp : Emb.canProceed
        { s with customInput := S, selectedAmount := d, amountError := "" } = true := by
      simp [Emb.canProceed, hS, hp, hd1]
    rw [hres]
    refine ⟨rfl, rfl, ?_⟩
    simp [Emb.renderEmb, hcp, Emb.elementsAmount, Emb.convertToSubcurrency]
  · intro hp
    simp [Hosted.handleCustomAmount, hp]
  · intro d hp hd
    have h0 : d = 0 ∨ d < 1 := Or.inr hd
    simp [Hosted.handleCustomAmount, hp, h0]
  · intro d hp hd
    have h := Hosted.handleCustomAmount_commits hp hd
    exact ⟨h.1, by rw [h.2.1]; rfl, h.2.2.1, h.2.2.2⟩

/-- The hosted state used in the C2 witness: modal open, custom text 12.34. -/
def c2witnessState : Hosted.ModalState := { Hosted.init with isOpen := true, amount := "12.34" }

/-- Witness for the amended C2: typing 12.34 in the embedded modal commits
12.34 dollars and binds the widget to 1234 cents; the hosted Set Amount with
text 12.34 commits 1234 cents and issues a request for 1234 cents. -/
theorem C2_witness :
    (Emb.handleCustomInput "12.34" Emb.embInit).selectedAmount = 617 / 50 ∧
    (Emb.handleCustomInput "12.34" Emb.embInit).amountError = "" ∧
    Emb.elementsAmount (Emb.renderEmb (Emb.handleCustomInput "12.34" Emb.embInit)) =
      some 1234 ∧
    (Hosted.handleCustomAmount c2witnessState).selectedAmount = some 1234 ∧
    (Hosted.handleCustomAmount c2witnessState).issued.head? =
      some { id := 0, amountInCents := 1234 } := by
  have h := C2_amount_validation Emb.embInit "12.34" c2witnessState
  have hpf : jsParseFloat "12.34" = some (617 / 50) := jsParseFloat_12_34
  have he := h.1.2.2.2.2 (617 / 50) (by decide) hpf (by norm_num) (by norm_num)
  have hh := h.2.2.2 (617 / 50) hpf (by norm_num)
  refine ⟨he.1, he.2.1, he.2.2.trans (by rw [jsRound_1234]), hh.1.trans (by rw [jsRound_1234]),
    hh.2.1.trans (by rw [jsRound_1234]; rfl)⟩

/-! ## Claims about the API routes -/

/-- A payment-intent upstream that always succeeds, used as a concrete
backend. -/
def okUpstreamPI : ℚ → Except String String := fun _ => Except.ok "pi_secret"

/-- Claim C3 counterexample. The create-checkout-session route performs no
amount validation: posting amount 0 against a backend that (like the real one)
rejects non-positive unit amounts yields a 500, not a 4xx, and no error path
of the route ever produces a 4xx. Moreover the create-payment-intent route
rejects the valid positive integer amount 2000000 (above its internal
maximum) with 400 instead of answering with a client secret. -/
theorem C3_counterexample :
    (CreateCheckoutSession.POST CreateCheckoutSession.strictUpstream (.num 0)).status = 500 ∧
    is4xx (CreateCheckoutSession.POST CreateCheckoutSession.strictUpstream (.num 0)).status =
      false ∧
    isClientSecretBody
      (CreateCheckoutSession.POST CreateCheckoutSession.strictUpstream (.num 0)).body = false ∧
    (CreatePaymentIntent.POST okUpstreamPI (.num 2000000)).status = 400 ∧
    isClientSecretBody (CreatePaymentIntent.POST okUpstreamPI (.num 2000000)).body =
      false := by
  have h1 : CreateCheckoutSession.POST CreateCheckoutSession.strictUpstream (.num 0) =
      { status := 500, body := .error "This value must be greater than or equal to 1." } := by
    simp [CreateCheckoutSession.POST, CreateCheckoutSession.strictUpstream]
  have h2 : CreatePaymentIntent.POST okUpstreamPI (.num 2000000) =
      { status := 400, body := .error "Amount exceeds maximum allowed ($10000)" } := by
    norm_num [CreatePaymentIntent.POST, CreatePaymentIntent.MAX_AMOUNT]
  rw [h1, h2]
  refine ⟨rfl, rfl, rfl, rfl, rfl⟩

/-- Claim C3 as amended: the create-payment-intent route rejects non-numeric
or non-positive amounts with 400 and an error message, rejects amounts above
its 1000000-cent maximum with 400, and answers a positive in-range amount with
the upstream client secret; the create-checkout-session route performs no
amount validation at all — it forwards the amount upstream and returns 200
with the client secret when the upstream call succeeds, or 500 with the
upstream error message when it fails. -/
theorem C3_endpoint_validation (up : ℚ → Except String String)
    (upc : JVal → Except String String) (v : JVal) (q : ℚ) (secret msg : String) :
    ((isNumber v = false → CreatePaymentIntent.POST up v =
      { status := 400
        body := .error "Invalid amount. Amount must be a positive number in cents." }) ∧
    (q ≤ 0 → CreatePaymentIntent.POST up (.num q) =
      { status := 400
        body := .error "Invalid amount. Amount must be a positive number in cents." }) ∧
    (CreatePaymentIntent.MAX_AMOUNT < q → CreatePaymentIntent.POST up (.num q) =
      { status := 400, body := .error "Amount exceeds maximum allowed ($10000)" }) ∧
    (0 < q → q ≤ CreatePaymentIntent.MAX_AMOUNT → up q = Except.ok secret →
      CreatePaymentIntent.POST up (.num q) =
        { status := 200, body := .clientSecret secret })) ∧
    ((upc v = Except.ok secret → CreateCheckoutSession.POST upc v =
      { status := 200, body := .clientSecret secret }) ∧
    (upc v = Except.error msg → CreateCheckoutSession.POST upc v =
      { status := 500, body := .error msg })) := by
  refine ⟨⟨?_, ?_, ?_, ?_⟩, ⟨?_, ?_⟩⟩
  · intro hn
    cases v with
    | num q => simp [isNumber] at hn
    | undef => rfl
    | null => rfl
    | bool b => rfl
    | str s => rfl
  · intro hq
    simp [CreatePaymentIntent.POST, hq]
  · intro hq
    have h0 : ¬q ≤ (0 : ℚ) := by
      have : (0 : ℚ) < CreatePaymentIntent.MAX_AMOUNT := by norm_num [CreatePaymentIntent.MAX_AMOUNT]
      linarith
    simp [CreatePaymentIntent.POST, h0, hq]
  · intro h1 h2 h3
    have h0 : ¬q ≤ (0 : ℚ) := by linarith
    have h4 : ¬CreatePaymentIntent.MAX_AMOUNT < q := by linarith
    simp [CreatePaymentIntent.POST, h0, h4, h3]
  · intro h
    simp [CreateCheckoutSession.POST, h]
  · intro h
    simp [CreateCheckoutSession.POST, h]

/-- Witness for the amended C3: concrete calls of both routes covering the
400, 200 and 500 outcomes. -/
theorem C3_witness :
    CreatePaymentIntent.POST okUpstreamPI (.str "abc") =
      { status := 400
        body := .error "Invalid amount. Amount must be a positive number in cents." } ∧
    CreatePaymentIntent.POST okUpstreamPI (.num (-5)) =
      { status := 400
        body := .error "Invalid amount. Amount must be a positive number in cents." } ∧
    CreatePaymentIntent.POST okUpstreamPI (.num 2500) =
      { status := 200, body := .clientSecret "pi_secret" } ∧
    CreateCheckoutSession.POST CreateCheckoutSession.strictUpstream (.num 2500) =
      { status := 200, body := .clientSecret "cs_test_secret" } ∧
    CreateCheckoutSession.POST CreateCheckoutSession.strictUpstream (.num (-5)) =
      { status := 500, body := .error "This value must be greater than or equal to 1." } := by
  refine ⟨?_, ?_, ?_, ?_, ?_⟩
  · exact (C3_endpoint_validation okUpstreamPI CreateCheckoutSession.strictUpstream
      (.str "abc") 1 "pi_secret" "").1.1 (by decide)
  · exact (C3_endpoint_validation okUpstreamPI CreateCheckoutSession.strictUpstream
      (.str "abc") (-5) "pi_secret" "").1.2.1 (by norm_num)
  · exact (C3_endpoint_validation okUpstreamPI CreateCheckoutSession.strictUpstream
      (.str "abc") 2500 "pi_secret" "").1.2.2.2 (by norm_num)
      (by norm_num [CreatePaymentIntent.MAX_AMOUNT]) rfl
  · exact (C3_endpoint_validation okUpstreamPI CreateCheckoutSession.strictUpstream
      (.num 2500) 1 "cs_test_secret" "").2.1
      (by norm_num [CreateCheckoutSession.strictUpstream])
  · exact (C3_endpoint_validation okUpstreamPI CreateCheckoutSession.strictUpstream
      (.num (-5)) 1 ""
      "This value must be greater than or equal to 1.").2.2
      (by norm_num [CreateCheckoutSession.strictUpstream])

/-- Claim C8: the verify-session route answers 400 with an error message when
the session identifier is missing (absent or empty), surfaces an upstream
lookup failure as a 500 with the error message, and otherwise answers 200 with
the status, amount_total and currency of the retrieved session. -/
theorem C8_verify_session (retrieve : String → Except String VerifySession.StripeSession)
    (sid : Option String) :
    (sid = none ∨ sid = some "" →
      VerifySession.GET retrieve sid = { status := 400, body := .error "No session ID" }) ∧
    (∀ x e, sid = some x → x ≠ "" → retrieve x = Except.error e →
      VerifySession.GET retrieve sid = { status := 500, body := .error e }) ∧
    (∀ x sess, sid = some x → x ≠ "" → retrieve x = Except.ok sess →
      VerifySession.GET retrieve sid =
        { status := 200
          body := .sessionData sess.status sess.amount_total sess.currency }) := by
  refine ⟨?_, ?_, ?_⟩
  · rintro (h | h) <;> subst h <;> simp [VerifySession.GET]
  · intro x e hx hne hr
    subst hx
    simp [VerifySession.GET, hne, hr]
  · intro x sess hx hne hr
    subst hx
    simp [VerifySession.GET, hne, hr]

/-- Witness for C8: a concrete retrieve function exercised on a missing
identifier, a failing lookup and a successful one. -/
theorem C8_witness :
    VerifySession.GET
      (fun x => if x = "cs_good" then Except.ok { status := "complete", amount_total := some 2500, currency := some "usd" } else Except.error "No such session")
      none = { status := 400, body := .error "No session ID" } ∧
    VerifySession.GET
      (fun x => if x = "cs_good" then Except.ok { status := "complete", amount_total := some 2500, currency := some "usd" } else Except.error "No such session")
      (some "cs_bad") = { status := 500, body := .error "No such session" } ∧
    VerifySession.GET
      (fun x => if x = "cs_good" then Except.ok { status := "complete", amount_total := some 2500, currency := some "usd" } else Except.error "No such session")
      (some "cs_good") =
        { status := 200, body := .sessionData "complete" (some 2500) (some "usd") } := by
  refine ⟨?_, ?_, ?_⟩
  · exact (C8_verify_session _ none).1 (Or.inl rfl)
  · exact (C8_verify_session _ (some "cs_bad")).2.1 "cs_bad" "No such session" rfl
      (by decide) rfl
  · exact (C8_verify_session _ (some "cs_good")).2.2 "cs_good"
      { status := "complete", amount_total := some 2500, currency := some "usd" } rfl
      (by decide) rfl

end NvK9
